import Mathlib

/-! Zyncontrol (Z2): control-hardware initialisation and teardown.

A shallow embedding of `zyncontrol_z2.c`.  The file only orchestrates calls into
driver modules (`gpiod_callback`, `lm4811`, `zynmcp23017`, `zynswitch`,
`zyncoder`, `zynpot`, `zynrv112`, `zynads1115`), so the observable behaviour of
every function is the sequence of driver calls it issues and the status it
returns.  The world state is therefore the log of driver calls issued so far;
each driver call appends itself to the log and yields the status the driver
reports, which the callers below keep or discard exactly as the C code does.
-/

namespace Zyncontrol

/-! ## Constants of the source -/

def MCP23017_1_BASE_PIN : Nat := 100
def MCP23017_1_I2C_ADDRESS : Nat := 0x20
def MCP23017_1_INTA_PIN : Nat := 5
def MCP23017_1_INTB_PIN : Nat := 6

def MCP23017_2_BASE_PIN : Nat := 200
def MCP23017_2_I2C_ADDRESS : Nat := 0x21

/-- Interrupt pin A of the second expander: `#if Z2_VERSION==1` selects 7, otherwise 17. -/
def MCP23017_2_INTA_PIN (Z2_VERSION : Int) : Nat := if Z2_VERSION = 1 then 7 else 17

/-- Interrupt pin B of the second expander: `#if Z2_VERSION==1` selects 8, otherwise 27. -/
def MCP23017_2_INTB_PIN (Z2_VERSION : Int) : Nat := if Z2_VERSION = 1 then 8 else 27

def RV112_ADS1115_I2C_ADDRESS_1 : Nat := 0x48
def RV112_ADS1115_I2C_ADDRESS_2 : Nat := 0x49

/-- Modelled from the spec: the gain constants of `zynads1115.h`, which is not part of the
sources; only the name used by this file is kept, as a symbolic value. -/
inductive Ads1115Gain
  | ADS1115_GAIN_VREF_4_096
  deriving DecidableEq, Repr

/-- Modelled from the spec: the sample-rate constants of `zynads1115.h`, which is not part of
the sources; the two names that appear in this file are kept as symbolic values. -/
inductive Ads1115Rate
  | ADS1115_RATE_475SPS
  | ADS1115_RATE_860SPS
  deriving DecidableEq, Repr

def RV112_ADS1115_GAIN : Ads1115Gain := Ads1115Gain.ADS1115_GAIN_VREF_4_096
def RV112_ADS1115_RATE : Ads1115Rate := Ads1115Rate.ADS1115_RATE_860SPS

/-- Modelled from the spec: the discriminant of a unified encoder slot, declared in `zynpot.h`,
which is not part of the sources.  `ZYNPOT_RV112` is the analog variant and `ZYNPOT_ZYNCODER`
the digital one. -/
inductive ZynpotType
  | ZYNPOT_ZYNCODER
  | ZYNPOT_RV112
  deriving DecidableEq, Repr

/-- Modelled from the spec: the number of pins of one expander chip (two banks of eight pins),
a property of the MCP23017 driver that is not part of the sources. -/
def MCP23017_NUM_PINS : Nat := 16

/-! ## Driver calls and the call log -/

/-- The four bank-scoped interrupt service routines defined in the source. -/
inductive Handler
  | zynmcp23017_ISR_bankA_1
  | zynmcp23017_ISR_bankB_1
  | zynmcp23017_ISR_bankA_2
  | zynmcp23017_ISR_bankB_2
  deriving DecidableEq, Repr

/-- One call into an external collaborator, with its arguments.  An ADC node argument
`&(ads1115_nodes[k])` is recorded as the index `k`; a handler-array argument is recorded as
the list of its entries.  The driver headers are not part of the sources, so the argument
names are descriptive only; the third argument of `setup_rv112` is called `chan` after the
channel selector of an analog encoder binding. -/
inductive Call
  | gpiod_init_callbacks
  | gpiod_start_callbacks
  | gpiod_stop_callbacks
  | lm4811_init
  | lm4811_end
  | reset_zynmcp23017s
  | setup_zynmcp23017 (i base_pin i2c_address intA_pin intB_pin : Nat) (isrs : List Handler)
  | zynmcp23017_ISR (i bank : Nat)
  | reset_zynswitches
  | setup_zynswitch (i pin active : Nat)
  | reset_zyncoders
  | setup_zyncoder (i pinA pinB : Nat)
  | reset_zynpots
  | setup_zynpot (i : Nat) (type : ZynpotType) (ii : Nat)
  | init_rv112s
  | end_rv112s
  | init_ads1115 (node i2c_address : Nat) (gain : Ads1115Gain) (rate : Ads1115Rate)
  | setup_rv112 (i node chan : Nat)
  | init_poll_rv112
  | fprintf_stderr (msg : String)
  deriving DecidableEq, Repr

/-- The world state: the driver calls issued so far, oldest first. -/
abbrev Trace := List Call

/-- The status a driver reports for a call, which may depend on everything issued before.
The driver sources are not part of this file, so their answers are a parameter. -/
abbrev Driver := Trace → Call → Int

/-- Perform one driver call: it is appended to the log and the driver's status is returned. -/
def call (drv : Driver) (c : Call) (w : Trace) : Int × Trace := (drv w c, w ++ [c])

/-- The C loop `for (i = 0; i < n; i++) body(i);`. -/
def forLoop (n : Nat) (body : Nat → Trace → Trace) (w : Trace) : Trace :=
  (List.range n).foldl (fun acc i => body i acc) w

/-! ## GPIO expanders -/

def zynmcp23017_ISR_bankA_1 (drv : Driver) (w : Trace) : Trace :=
  (call drv (Call.zynmcp23017_ISR 0 0) w).2

def zynmcp23017_ISR_bankB_1 (drv : Driver) (w : Trace) : Trace :=
  (call drv (Call.zynmcp23017_ISR 0 1) w).2

def zynmcp23017_ISR_bankA_2 (drv : Driver) (w : Trace) : Trace :=
  (call drv (Call.zynmcp23017_ISR 1 0) w).2

def zynmcp23017_ISR_bankB_2 (drv : Driver) (w : Trace) : Trace :=
  (call drv (Call.zynmcp23017_ISR 1 1) w).2

/-- Invoking a registered handler runs the function it names. -/
def Handler.run : Handler → Driver → Trace → Trace
  | Handler.zynmcp23017_ISR_bankA_1 => Zyncontrol.zynmcp23017_ISR_bankA_1
  | Handler.zynmcp23017_ISR_bankB_1 => Zyncontrol.zynmcp23017_ISR_bankB_1
  | Handler.zynmcp23017_ISR_bankA_2 => Zyncontrol.zynmcp23017_ISR_bankA_2
  | Handler.zynmcp23017_ISR_bankB_2 => Zyncontrol.zynmcp23017_ISR_bankB_2

def zynmcp23017_ISRs_1 : List Handler :=
  [Handler.zynmcp23017_ISR_bankA_1, Handler.zynmcp23017_ISR_bankB_1]

def zynmcp23017_ISRs_2 : List Handler :=
  [Handler.zynmcp23017_ISR_bankA_2, Handler.zynmcp23017_ISR_bankB_2]

def init_zynmcp23017s (drv : Driver) (Z2_VERSION : Int) (w : Trace) : Trace :=
  let w := (call drv Call.reset_zynmcp23017s w).2
  let w := (call drv (Call.setup_zynmcp23017 0 MCP23017_1_BASE_PIN MCP23017_1_I2C_ADDRESS
    MCP23017_1_INTA_PIN MCP23017_1_INTB_PIN zynmcp23017_ISRs_1) w).2
  let w := (call drv (Call.setup_zynmcp23017 1 MCP23017_2_BASE_PIN MCP23017_2_I2C_ADDRESS
    (MCP23017_2_INTA_PIN Z2_VERSION) (MCP23017_2_INTB_PIN Z2_VERSION) zynmcp23017_ISRs_2) w).2
  w

/-! ## Switches -/

def init_zynswitches (drv : Driver) (w : Trace) : Trace :=
  let w := (call drv Call.reset_zynswitches w).2
  let w := (call drv (Call.fprintf_stderr "ZynCore: Setting-up 30 x Zynswitches...\n") w).2
  let w := forLoop 16
    (fun i w => (call drv (Call.setup_zynswitch (4 + i) (MCP23017_1_BASE_PIN + i) 1) w).2) w
  let w := forLoop 14
    (fun i w => (call drv (Call.setup_zynswitch (20 + i) (MCP23017_2_BASE_PIN + i) 1) w).2) w
  w

/-! ## Zynpots -/

def init_zynpots (drv : Driver) (Z2_VERSION : Int) (w : Trace) : Trace :=
  let w := (call drv Call.reset_zyncoders w).2
  let w := (call drv Call.reset_zynpots w).2
  let w := (call drv Call.init_rv112s w).2
  let w := (call drv (Call.init_ads1115 0 RV112_ADS1115_I2C_ADDRESS_1 RV112_ADS1115_GAIN
    RV112_ADS1115_RATE) w).2
  let w := (call drv (Call.init_ads1115 1 RV112_ADS1115_I2C_ADDRESS_2 RV112_ADS1115_GAIN
    RV112_ADS1115_RATE) w).2
  if Z2_VERSION > 2 then
    let w := (call drv (Call.fprintf_stderr
      "ZynCore: Setting-up Zynpots => 3 x RV112, 1 x PEC11 ...\n") w).2
    let w := (call drv (Call.setup_rv112 0 0 0) w).2
    let w := (call drv (Call.setup_rv112 1 0 0) w).2
    let w := (call drv (Call.setup_rv112 2 1 0) w).2
    let w := (call drv Call.init_poll_rv112 w).2
    let w := (call drv (Call.setup_zyncoder 0 (MCP23017_2_BASE_PIN + 14)
      (MCP23017_2_BASE_PIN + 15)) w).2
    let w := (call drv (Call.setup_zynpot 0 ZynpotType.ZYNPOT_RV112 0) w).2
    let w := (call drv (Call.setup_zynpot 1 ZynpotType.ZYNPOT_RV112 1) w).2
    let w := (call drv (Call.setup_zynpot 2 ZynpotType.ZYNPOT_RV112 2) w).2
    let w := (call drv (Call.setup_zynpot 3 ZynpotType.ZYNPOT_ZYNCODER 0) w).2
    w
  else
    let w := (call drv (Call.fprintf_stderr "ZynCore: Setting-up Zynpots => 4 x RV112...\n") w).2
    let w := (call drv (Call.setup_rv112 0 0 0) w).2
    let w := (call drv (Call.setup_rv112 1 0 0) w).2
    let w := (call drv (Call.setup_rv112 2 1 0) w).2
    let w := (call drv (Call.setup_rv112 3 1 1) w).2
    let w := (call drv Call.init_poll_rv112 w).2
    let w := forLoop 4
      (fun i w => (call drv (Call.setup_zynpot i ZynpotType.ZYNPOT_RV112 i) w).2) w
    w

def end_zynpots (drv : Driver) (w : Trace) : Trace :=
  let w := (call drv Call.end_rv112s w).2
  let w := (call drv Call.reset_zynpots w).2
  w

/-! ## Zyncontrol initialisation and teardown -/

def init_zyncontrol (drv : Driver) (Z2_VERSION : Int) (w : Trace) : Int × Trace :=
  let w := (call drv Call.gpiod_init_callbacks w).2
  let w := (call drv Call.lm4811_init w).2
  let w := init_zynmcp23017s drv Z2_VERSION w
  let w := init_zynswitches drv w
  let w := init_zynpots drv Z2_VERSION w
  let w := (call drv Call.gpiod_start_callbacks w).2
  (1, w)

def end_zyncontrol (drv : Driver) (w : Trace) : Int × Trace :=
  let w := (call drv Call.gpiod_stop_callbacks w).2
  let w := end_zynpots drv w
  let w := (call drv Call.reset_zyncoders w).2
  let w := (call drv Call.reset_zynswitches w).2
  let w := (call drv Call.reset_zynmcp23017s w).2
  let w := (call drv Call.lm4811_end w).2
  (1, w)

/-! ## Observations on call logs -/

/-- The calls a function issued, given the log `w` it started from and the log `w2` it left. -/
def issued (w w2 : Trace) : List Call := w2.drop w.length

/-- The driver configuration calls: `setup_zynmcp23017`, `setup_zynswitch`, `setup_rv112`,
`setup_zyncoder` and `setup_zynpot`. -/
def Call.isSetup : Call → Bool
  | Call.setup_zynmcp23017 _ _ _ _ _ _ => true
  | Call.setup_zynswitch _ _ _ => true
  | Call.setup_rv112 _ _ _ => true
  | Call.setup_zyncoder _ _ _ => true
  | Call.setup_zynpot _ _ _ => true
  | _ => false

/-- The analog encoder bindings `(index, node, channel)` a log configures, in call order:
the arguments of its `setup_rv112` calls. -/
def rv112Bindings (t : List Call) : List (Nat × Nat × Nat) :=
  t.filterMap fun c =>
    match c with
    | Call.setup_rv112 i node chan => some (i, node, chan)
    | _ => none

/-- The digital encoder bindings `(index, pinA, pinB)` a log configures, in call order:
the arguments of its `setup_zyncoder` calls. -/
def zyncoderBindings (t : List Call) : List (Nat × Nat × Nat) :=
  t.filterMap fun c =>
    match c with
    | Call.setup_zyncoder i pinA pinB => some (i, pinA, pinB)
    | _ => none

/-- The unified encoder slots `(index, type, backing index)` a log configures, in call order:
the arguments of its `setup_zynpot` calls. -/
def zynpotSlots (t : List Call) : List (Nat × ZynpotType × Nat) :=
  t.filterMap fun c =>
    match c with
    | Call.setup_zynpot i type ii => some (i, type, ii)
    | _ => none

/-- The logical switches `(index, pin, active level)` a log configures, in call order:
the arguments of its `setup_zynswitch` calls. -/
def switchBindings (t : List Call) : List (Nat × Nat × Nat) :=
  t.filterMap fun c =>
    match c with
    | Call.setup_zynswitch i pin active => some (i, pin, active)
    | _ => none

/-- Whether a slot's backing binding is configured in the log: an analog slot needs a
`setup_rv112` call with its backing index, a digital slot a `setup_zyncoder` call with it. -/
def slotBacked (t : List Call) (slot : Nat × ZynpotType × Nat) : Bool :=
  match slot.2.1 with
  | ZynpotType.ZYNPOT_RV112 => decide (slot.2.2 ∈ (rv112Bindings t).map Prod.fst)
  | ZynpotType.ZYNPOT_ZYNCODER => decide (slot.2.2 ∈ (zyncoderBindings t).map Prod.fst)

/-- Modelled from the spec: the expander chip that owns a pin number.  The MCP23017 driver is
not part of the sources; a chip configured with base pin `b` owns the `MCP23017_NUM_PINS`
pin numbers starting at `b`, chip 0 being configured with `MCP23017_1_BASE_PIN` and chip 1
with `MCP23017_2_BASE_PIN`. -/
def chipOfPin (pin : Nat) : Option Nat :=
  if MCP23017_1_BASE_PIN ≤ pin ∧ pin < MCP23017_1_BASE_PIN + MCP23017_NUM_PINS then some 0
  else if MCP23017_2_BASE_PIN ≤ pin ∧ pin < MCP23017_2_BASE_PIN + MCP23017_NUM_PINS then some 1
  else none

/-- The calls that concern the analog encoder driver layer: ADC node initialisation,
binding creation and the start of the sampling cadence. -/
def Call.isAnalogStep : Call → Bool
  | Call.init_ads1115 _ _ _ _ => true
  | Call.setup_rv112 _ _ _ => true
  | Call.init_poll_rv112 => true
  | _ => false

/-- The six teardown steps named by the lifecycle description. -/
def Call.isTeardownStep : Call → Bool
  | Call.gpiod_stop_callbacks => true
  | Call.end_rv112s => true
  | Call.reset_zynpots => true
  | Call.reset_zynswitches => true
  | Call.reset_zynmcp23017s => true
  | Call.lm4811_end => true
  | _ => false

/-- The subsystems the orchestrator sequences. -/
inductive Subsystem
  | callbacks
  | volume
  | expanders
  | switches
  | encoders
  deriving DecidableEq, Repr

/-- The subsystem a driver call belongs to, following the grouping of the source: the calls
made by `init_zynmcp23017s` are the expanders, those of `init_zynswitches` the switches,
those of `init_zynpots` and `end_zynpots` the encoders.  Diagnostic prints belong to none. -/
def Call.subsystem : Call → Option Subsystem
  | Call.gpiod_init_callbacks => some Subsystem.callbacks
  | Call.gpiod_start_callbacks => some Subsystem.callbacks
  | Call.gpiod_stop_callbacks => some Subsystem.callbacks
  | Call.lm4811_init => some Subsystem.volume
  | Call.lm4811_end => some Subsystem.volume
  | Call.reset_zynmcp23017s => some Subsystem.expanders
  | Call.setup_zynmcp23017 _ _ _ _ _ _ => some Subsystem.expanders
  | Call.zynmcp23017_ISR _ _ => some Subsystem.expanders
  | Call.reset_zynswitches => some Subsystem.switches
  | Call.setup_zynswitch _ _ _ => some Subsystem.switches
  | Call.reset_zyncoders => some Subsystem.encoders
  | Call.setup_zyncoder _ _ _ => some Subsystem.encoders
  | Call.reset_zynpots => some Subsystem.encoders
  | Call.setup_zynpot _ _ _ => some Subsystem.encoders
  | Call.init_rv112s => some Subsystem.encoders
  | Call.end_rv112s => some Subsystem.encoders
  | Call.init_ads1115 _ _ _ _ => some Subsystem.encoders
  | Call.setup_rv112 _ _ _ => some Subsystem.encoders
  | Call.init_poll_rv112 => some Subsystem.encoders
  | Call.fprintf_stderr _ => none

/-- A driver whose every call reports status 1. -/
def drvOk : Driver := fun _ _ => 1

/-- A driver whose expander chips are unreachable: every `setup_zynmcp23017` call reports
status 0, every other call reports 1. -/
def drvChipUnreachable : Driver := fun _ c =>
  match c with
  | Call.setup_zynmcp23017 _ _ _ _ _ _ => 0
  | _ => 1

/-! ## The calls issued by each function, written out -/

/-- The calls `init_zynmcp23017s` issues, for each value of the revision selector. -/
def zynmcp23017sCalls (Z2_VERSION : Int) : List Call :=
  [Call.reset_zynmcp23017s,
   Call.setup_zynmcp23017 0 100 0x20 5 6 zynmcp23017_ISRs_1,
   Call.setup_zynmcp23017 1 200 0x21 (MCP23017_2_INTA_PIN Z2_VERSION)
     (MCP23017_2_INTB_PIN Z2_VERSION) zynmcp23017_ISRs_2]

/-- The calls `init_zynswitches` issues. -/
def zynswitchesCalls : List Call :=
  [Call.reset_zynswitches, Call.fprintf_stderr "ZynCore: Setting-up 30 x Zynswitches...\n"]
    ++ (List.range 16).map (fun i => Call.setup_zynswitch (4 + i) (MCP23017_1_BASE_PIN + i) 1)
    ++ (List.range 14).map (fun i => Call.setup_zynswitch (20 + i) (MCP23017_2_BASE_PIN + i) 1)

/-- The calls `init_zynpots` issues, for each value of the revision selector. -/
def zynpotsCalls (Z2_VERSION : Int) : List Call :=
  [Call.reset_zyncoders, Call.reset_zynpots, Call.init_rv112s,
   Call.init_ads1115 0 RV112_ADS1115_I2C_ADDRESS_1 RV112_ADS1115_GAIN RV112_ADS1115_RATE,
   Call.init_ads1115 1 RV112_ADS1115_I2C_ADDRESS_2 RV112_ADS1115_GAIN RV112_ADS1115_RATE] ++
  if Z2_VERSION > 2 then
    [Call.fprintf_stderr "ZynCore: Setting-up Zynpots => 3 x RV112, 1 x PEC11 ...\n",
     Call.setup_rv112 0 0 0, Call.setup_rv112 1 0 0, Call.setup_rv112 2 1 0,
     Call.init_poll_rv112,
     Call.setup_zyncoder 0 (MCP23017_2_BASE_PIN + 14) (MCP23017_2_BASE_PIN + 15),
     Call.setup_zynpot 0 ZynpotType.ZYNPOT_RV112 0,
     Call.setup_zynpot 1 ZynpotType.ZYNPOT_RV112 1,
     Call.setup_zynpot 2 ZynpotType.ZYNPOT_RV112 2,
     Call.setup_zynpot 3 ZynpotType.ZYNPOT_ZYNCODER 0]
  else
    [Call.fprintf_stderr "ZynCore: Setting-up Zynpots => 4 x RV112...\n",
     Call.setup_rv112 0 0 0, Call.setup_rv112 1 0 0, Call.setup_rv112 2 1 0,
     Call.setup_rv112 3 1 1,
     Call.init_poll_rv112,
     Call.setup_zynpot 0 ZynpotType.ZYNPOT_RV112 0,
     Call.setup_zynpot 1 ZynpotType.ZYNPOT_RV112 1,
     Call.setup_zynpot 2 ZynpotType.ZYNPOT_RV112 2,
     Call.setup_zynpot 3 ZynpotType.ZYNPOT_RV112 3]

/-- The calls `init_zyncontrol` issues, for each value of the revision selector. -/
def zyncontrolCalls (Z2_VERSION : Int) : List Call :=
  [Call.gpiod_init_callbacks, Call.lm4811_init] ++ zynmcp23017sCalls Z2_VERSION
    ++ zynswitchesCalls ++ zynpotsCalls Z2_VERSION ++ [Call.gpiod_start_callbacks]

/-- The calls `end_zyncontrol` issues. -/
def endZyncontrolCalls : List Call :=
  [Call.gpiod_stop_callbacks, Call.end_rv112s, Call.reset_zynpots, Call.reset_zyncoders,
   Call.reset_zynswitches, Call.reset_zynmcp23017s, Call.lm4811_end]

/-! ## Each function appends exactly its calls to the log -/

theorem issued_append (w t : Trace) : issued w (w ++ t) = t := by
  simp [issued]

theorem forLoop_call (drv : Driver) (n : Nat) (f : Nat → Call) (w : Trace) :
    forLoop n (fun i w => (call drv (f i) w).2) w = w ++ (List.range n).map f := by
  induction n with
  | zero => simp [forLoop]
  | succ n ih =>
    unfold forLoop at ih ⊢
    rw [List.range_succ, List.foldl_append, ih]
    simp [call]

theorem init_zynmcp23017s_trace (drv : Driver) (Z2_VERSION : Int) (w : Trace) :
    init_zynmcp23017s drv Z2_VERSION w = w ++ zynmcp23017sCalls Z2_VERSION := by
  simp [init_zynmcp23017s, zynmcp23017sCalls, call, MCP23017_1_BASE_PIN,
    MCP23017_1_I2C_ADDRESS, MCP23017_1_INTA_PIN, MCP23017_1_INTB_PIN, MCP23017_2_BASE_PIN,
    MCP23017_2_I2C_ADDRESS]

theorem init_zynswitches_trace (drv : Driver) (w : Trace) :
    init_zynswitches drv w = w ++ zynswitchesCalls := by
  unfold init_zynswitches zynswitchesCalls
  simp only [forLoop_call]
  simp [call]

theorem init_zynpots_trace (drv : Driver) (Z2_VERSION : Int) (w : Trace) :
    init_zynpots drv Z2_VERSION w = w ++ zynpotsCalls Z2_VERSION := by
  unfold init_zynpots zynpotsCalls
  simp only [forLoop_call]
  by_cases h : Z2_VERSION > 2
  · simp [h, call]
  · simp [h, call, List.range_succ]

theorem end_zynpots_trace (drv : Driver) (w : Trace) :
    end_zynpots drv w = w ++ [Call.end_rv112s, Call.reset_zynpots] := by
  simp [end_zynpots, call]

theorem init_zyncontrol_trace (drv : Driver) (Z2_VERSION : Int) (w : Trace) :
    init_zyncontrol drv Z2_VERSION w = (1, w ++ zyncontrolCalls Z2_VERSION) := by
  simp [init_zyncontrol, init_zynmcp23017s_trace, init_zynswitches_trace, init_zynpots_trace,
    call, zyncontrolCalls]

theorem end_zyncontrol_trace (drv : Driver) (w : Trace) :
    end_zyncontrol drv w = (1, w ++ endZyncontrolCalls) := by
  simp [end_zyncontrol, end_zynpots_trace, call, endZyncontrolCalls]

/-- The revision selector only matters through `Z2_VERSION==1` and `Z2_VERSION>2`, so every
revision issues the calls of revision 1, 2 or 3. -/
theorem zyncontrolCalls_cases (Z2_VERSION : Int) :
    zyncontrolCalls Z2_VERSION = zyncontrolCalls 1 ∨
    zyncontrolCalls Z2_VERSION = zyncontrolCalls 2 ∨
    zyncontrolCalls Z2_VERSION = zyncontrolCalls 3 := by
  by_cases h1 : Z2_VERSION = 1
  · left; rw [h1]
  · by_cases h2 : Z2_VERSION > 2
    · right; right
      simp [zyncontrolCalls, zynmcp23017sCalls, zynpotsCalls, MCP23017_2_INTA_PIN,
        MCP23017_2_INTB_PIN, h1, h2]
    · right; left
      simp [zyncontrolCalls, zynmcp23017sCalls, zynpotsCalls, MCP23017_2_INTA_PIN,
        MCP23017_2_INTB_PIN, h1, h2]

theorem zynpotsCalls_cases (Z2_VERSION : Int) :
    (Z2_VERSION ≤ 2 ∧ zynpotsCalls Z2_VERSION = zynpotsCalls 2) ∨
    (Z2_VERSION > 2 ∧ zynpotsCalls Z2_VERSION = zynpotsCalls 3) := by
  by_cases h2 : Z2_VERSION > 2
  · right; exact ⟨h2, by simp [zynpotsCalls, h2]⟩
  · left; exact ⟨by omega, by simp [zynpotsCalls, h2]⟩

/-- In a log that ends with `gpiod_start_callbacks`, every configuration call stands strictly
before the last position. -/
theorem setup_before_last (t : List Call)
    (hlast : t.getLast? = some Call.gpiod_start_callbacks) (i : Nat) (h : i < t.length)
    (hs : (t.get ⟨i, h⟩).isSetup = true) : i + 1 < t.length := by
  by_contra hlt
  have hi : t.length - 1 = i := by omega
  have hget : t.get ⟨i, h⟩ = Call.gpiod_start_callbacks := by
    have := List.getLast?_eq_getElem? t
    rw [hlast, hi, List.getElem?_eq_getElem h] at this
    simpa using this.symm
  rw [hget] at hs
  simp [Call.isSetup] at hs

/-! ## Call order of `init_zyncontrol` -/

/-- C1: for every revision, `init_zyncontrol` issues `gpiod_init_callbacks`, `lm4811_init`,
the calls of `init_zynmcp23017s`, of `init_zynswitches`, of `init_zynpots`, and then
`gpiod_start_callbacks`, in that order; `gpiod_start_callbacks` is the last call, occurs
exactly once, and every one of the 40 `setup_*` calls stands strictly before it. -/
theorem init_zyncontrol_call_order (drv : Driver) (Z2_VERSION : Int) (w : Trace) :
    (init_zyncontrol drv Z2_VERSION w).2
        = w ++ issued w (init_zyncontrol drv Z2_VERSION w).2 ∧
    (∀ (d1 d2 d3 : Driver) (w1 w2 w3 : Trace),
      issued w (init_zyncontrol drv Z2_VERSION w).2
        = [Call.gpiod_init_callbacks, Call.lm4811_init]
          ++ issued w1 (init_zynmcp23017s d1 Z2_VERSION w1)
          ++ issued w2 (init_zynswitches d2 w2)
          ++ issued w3 (init_zynpots d3 Z2_VERSION w3)
          ++ [Call.gpiod_start_callbacks]) ∧
    (issued w (init_zyncontrol drv Z2_VERSION w).2).getLast? = some Call.gpiod_start_callbacks ∧
    (issued w (init_zyncontrol drv Z2_VERSION w).2).count Call.gpiod_start_callbacks = 1 ∧
    ((issued w (init_zyncontrol drv Z2_VERSION w).2).filter Call.isSetup).length = 40 ∧
    (∀ (i : Nat) (h : i < (issued w (init_zyncontrol drv Z2_VERSION w).2).length),
      ((issued w (init_zyncontrol drv Z2_VERSION w).2).get ⟨i, h⟩).isSetup = true →
        i + 1 < (issued w (init_zyncontrol drv Z2_VERSION w).2).length) := by
  have key : issued w (init_zyncontrol drv Z2_VERSION w).2 = zyncontrolCalls Z2_VERSION := by
    rw [init_zyncontrol_trace, issued_append]
  rw [key]
  have hlast : (zyncontrolCalls Z2_VERSION).getLast? = some Call.gpiod_start_callbacks := by
    rcases zyncontrolCalls_cases Z2_VERSION with h | h | h <;> rw [h] <;> decide
  refine ⟨by rw [init_zyncontrol_trace], ?_, hlast, ?_, ?_, ?_⟩
  · intro d1 d2 d3 w1 w2 w3
    simp only [init_zynmcp23017s_trace, init_zynswitches_trace, init_zynpots_trace,
      issued_append]
    rfl
  · rcases zyncontrolCalls_cases Z2_VERSION with h | h | h <;> rw [h] <;> decide
  · rcases zyncontrolCalls_cases Z2_VERSION with h | h | h <;> rw [h] <;> decide
  · exact setup_before_last _ hlast

/-! ## Analog encoder bindings and unified encoder slots -/

/-- C2, as stated, fails: on revision 1 (and on revision 3) the `setup_rv112` calls of
`init_zynpots` give bindings 0 and 1 the same (node, channel) pair (0, 0), so the
(node, channel) pairs of the bindings are not pairwise distinct. -/
theorem init_zynpots_channel_collision :
    (0, 0, 0) ∈ rv112Bindings (issued [] (init_zynpots drvOk 1 [])) ∧
    (1, 0, 0) ∈ rv112Bindings (issued [] (init_zynpots drvOk 1 [])) ∧
    ¬ ((rv112Bindings (issued [] (init_zynpots drvOk 1 []))).map Prod.snd).Nodup ∧
    ¬ ((rv112Bindings (issued [] (init_zynpots drvOk 3 []))).map Prod.snd).Nodup := by
  simp only [init_zynpots_trace, issued_append]
  decide

/-- C2, amended: for every revision, the `setup_rv112` calls of `init_zynpots` give bindings
0 and 1 the same pair (node 0, channel 0); apart from that pair, no two distinct bindings
are given the same (node, channel) pair, and no binding index is configured twice. -/
theorem init_zynpots_channels_distinct_except_first_pair
    (drv : Driver) (Z2_VERSION : Int) (w : Trace) :
    (0, 0, 0) ∈ rv112Bindings (issued w (init_zynpots drv Z2_VERSION w)) ∧
    (1, 0, 0) ∈ rv112Bindings (issued w (init_zynpots drv Z2_VERSION w)) ∧
    ((rv112Bindings (issued w (init_zynpots drv Z2_VERSION w))).map Prod.fst).Nodup ∧
    (∀ a ∈ rv112Bindings (issued w (init_zynpots drv Z2_VERSION w)),
      ∀ b ∈ rv112Bindings (issued w (init_zynpots drv Z2_VERSION w)),
        a.2 = b.2 → a.1 = b.1 ∨ (a.1 = 0 ∧ b.1 = 1) ∨ (a.1 = 1 ∧ b.1 = 0)) := by
  rw [init_zynpots_trace, issued_append]
  rcases zynpotsCalls_cases Z2_VERSION with ⟨_, h⟩ | ⟨_, h⟩ <;> rw [h] <;> decide

/-- C3: for every revision, `init_zynpots` configures exactly the four unified encoder slots
0, 1, 2, 3, each once and in that order.  For revision at most 2 slot `i` is tagged
`ZYNPOT_RV112` and backed by analog binding `i`; for revision above 2 slots 0, 1, 2 are tagged
`ZYNPOT_RV112` with analog bindings 0, 1, 2 and slot 3 is tagged `ZYNPOT_ZYNCODER` with digital
encoder 0.  Every slot's backing binding is configured by the same `init_zynpots` call. -/
theorem init_zynpots_slots (drv : Driver) (Z2_VERSION : Int) (w : Trace) :
    zynpotSlots (issued w (init_zynpots drv Z2_VERSION w))
      = (if Z2_VERSION > 2 then
          [(0, ZynpotType.ZYNPOT_RV112, 0), (1, ZynpotType.ZYNPOT_RV112, 1),
           (2, ZynpotType.ZYNPOT_RV112, 2), (3, ZynpotType.ZYNPOT_ZYNCODER, 0)]
        else
          [(0, ZynpotType.ZYNPOT_RV112, 0), (1, ZynpotType.ZYNPOT_RV112, 1),
           (2, ZynpotType.ZYNPOT_RV112, 2), (3, ZynpotType.ZYNPOT_RV112, 3)]) ∧
    (zynpotSlots (issued w (init_zynpots drv Z2_VERSION w))).map Prod.fst = [0, 1, 2, 3] ∧
    (∀ slot ∈ zynpotSlots (issued w (init_zynpots drv Z2_VERSION w)),
      slotBacked (issued w (init_zynpots drv Z2_VERSION w)) slot = true) ∧
    zyncoderBindings (issued w (init_zynpots drv Z2_VERSION w))
      = (if Z2_VERSION > 2 then [(0, MCP23017_2_BASE_PIN + 14, MCP23017_2_BASE_PIN + 15)]
        else []) := by
  rw [init_zynpots_trace, issued_append]
  rcases zynpotsCalls_cases Z2_VERSION with ⟨hr, h⟩ | ⟨hr, h⟩
  · rw [h, if_neg (by omega), if_neg (by omega)]
    decide
  · rw [h, if_pos hr, if_pos hr]
    decide

/-- C9: for every revision, `init_zynpots` creates the prescribed analog bindings: for
revision at most 2 the four bindings 0..3, bindings 0 and 1 on node 0, bindings 2 and 3 on
node 1 with channels 0 and 1; for revision above 2 the three bindings 0..2, bindings 0 and 1
on node 0 and binding 2 on node 1 channel 0.  Restricted to ADC node initialisation, binding
creation and cadence start, the calls are: node 0 at address 0x48, node 1 at address 0x49
with the same gain and rate, then the bindings, then `init_poll_rv112` once, last. -/
theorem init_zynpots_analog_bindings (drv : Driver) (Z2_VERSION : Int) (w : Trace) :
    rv112Bindings (issued w (init_zynpots drv Z2_VERSION w))
      = (if Z2_VERSION > 2 then [(0, 0, 0), (1, 0, 0), (2, 1, 0)]
        else [(0, 0, 0), (1, 0, 0), (2, 1, 0), (3, 1, 1)]) ∧
    (issued w (init_zynpots drv Z2_VERSION w)).filter Call.isAnalogStep
      = [Call.init_ads1115 0 0x48 RV112_ADS1115_GAIN RV112_ADS1115_RATE,
         Call.init_ads1115 1 0x49 RV112_ADS1115_GAIN RV112_ADS1115_RATE]
        ++ (if Z2_VERSION > 2 then
              [Call.setup_rv112 0 0 0, Call.setup_rv112 1 0 0, Call.setup_rv112 2 1 0]
            else
              [Call.setup_rv112 0 0 0, Call.setup_rv112 1 0 0, Call.setup_rv112 2 1 0,
               Call.setup_rv112 3 1 1])
        ++ [Call.init_poll_rv112] ∧
    (issued w (init_zynpots drv Z2_VERSION w)).count Call.init_poll_rv112 = 1 ∧
    RV112_ADS1115_I2C_ADDRESS_1 ≠ RV112_ADS1115_I2C_ADDRESS_2 := by
  rw [init_zynpots_trace, issued_append]
  rcases zynpotsCalls_cases Z2_VERSION with ⟨hr, h⟩ | ⟨hr, h⟩
  · rw [h, if_neg (by omega), if_neg (by omega)]
    decide
  · rw [h, if_pos hr, if_pos hr]
    decide

/-! ## Switches and the pins of the digital encoder -/

/-- C4: `init_zynswitches` first resets the switch table (once) and then configures exactly
the 30 logical switches 4..33, each once and with active level 1: index `4+i` on pin
`MCP23017_1_BASE_PIN+i` of chip 0 for `i` in 0..15, index `20+i` on pin
`MCP23017_2_BASE_PIN+i` of chip 1 for `i` in 0..13.  The indices are 4..33 without gap or
repetition, chip 0 serves exactly the indices below 20, and no pin is bound twice. -/
theorem init_zynswitches_bindings (drv : Driver) (w : Trace) :
    (issued w (init_zynswitches drv w)).head? = some Call.reset_zynswitches ∧
    (issued w (init_zynswitches drv w)).count Call.reset_zynswitches = 1 ∧
    switchBindings (issued w (init_zynswitches drv w))
      = (List.range 16).map (fun i => (4 + i, MCP23017_1_BASE_PIN + i, 1))
        ++ (List.range 14).map (fun i => (20 + i, MCP23017_2_BASE_PIN + i, 1)) ∧
    (switchBindings (issued w (init_zynswitches drv w))).map Prod.fst = List.range' 4 30 ∧
    ((switchBindings (issued w (init_zynswitches drv w))).map (fun b => b.2.1)).Nodup ∧
    (∀ b ∈ switchBindings (issued w (init_zynswitches drv w)),
      b.2.2 = 1 ∧ chipOfPin b.2.1 = some (if b.1 < 20 then 0 else 1)) := by
  rw [init_zynswitches_trace, issued_append]
  decide

/-- C5: for revision above 2, the digital encoder binding created by `init_zynpots` uses the
chip 1 pins `MCP23017_2_BASE_PIN+14` and `MCP23017_2_BASE_PIN+15`.  They are distinct, both
belong to chip 1, they directly follow the last pin `init_zynswitches` binds on chip 1
(`MCP23017_2_BASE_PIN+13`, the largest switch pin), and no switch is bound to either. -/
theorem init_zynpots_zyncoder_pins (drv : Driver) (Z2_VERSION : Int) (w w2 : Trace)
    (hrev : Z2_VERSION > 2) :
    zyncoderBindings (issued w (init_zynpots drv Z2_VERSION w))
      = [(0, MCP23017_2_BASE_PIN + 14, MCP23017_2_BASE_PIN + 15)] ∧
    MCP23017_2_BASE_PIN + 14 ≠ MCP23017_2_BASE_PIN + 15 ∧
    chipOfPin (MCP23017_2_BASE_PIN + 14) = some 1 ∧
    chipOfPin (MCP23017_2_BASE_PIN + 15) = some 1 ∧
    ((switchBindings (issued w2 (init_zynswitches drv w2))).map (fun b => b.2.1)).getLast?
      = some (MCP23017_2_BASE_PIN + 13) ∧
    (∀ b ∈ switchBindings (issued w2 (init_zynswitches drv w2)),
      b.2.1 ≤ MCP23017_2_BASE_PIN + 13) ∧
    (∀ b ∈ switchBindings (issued w2 (init_zynswitches drv w2)),
      b.2.1 ≠ MCP23017_2_BASE_PIN + 14 ∧ b.2.1 ≠ MCP23017_2_BASE_PIN + 15) ∧
    (∀ b ∈ switchBindings (issued w (init_zyncontrol drv Z2_VERSION w).2),
      b.2.1 ≠ MCP23017_2_BASE_PIN + 14 ∧ b.2.1 ≠ MCP23017_2_BASE_PIN + 15) := by
  rw [init_zynpots_trace, init_zynswitches_trace, init_zyncontrol_trace]
  simp only [issued_append]
  have h3 : zynpotsCalls Z2_VERSION = zynpotsCalls 3 := by
    rcases zynpotsCalls_cases Z2_VERSION with ⟨hr, _⟩ | ⟨_, h⟩
    · omega
    · exact h
  have h4 : zyncontrolCalls Z2_VERSION = zyncontrolCalls 3 := by
    simp [zyncontrolCalls, zynmcp23017sCalls, h3, MCP23017_2_INTA_PIN, MCP23017_2_INTB_PIN,
      show Z2_VERSION ≠ 1 by omega]
  rw [h3, h4]
  decide

/-- C5 at revision 3, starting from the empty log. -/
theorem init_zynpots_zyncoder_pins_rev3 :
    (3 : Int) > 2 ∧
    zyncoderBindings (issued [] (init_zynpots drvOk 3 []))
      = [(0, MCP23017_2_BASE_PIN + 14, MCP23017_2_BASE_PIN + 15)] ∧
    MCP23017_2_BASE_PIN + 14 ≠ MCP23017_2_BASE_PIN + 15 ∧
    chipOfPin (MCP23017_2_BASE_PIN + 14) = some 1 ∧
    chipOfPin (MCP23017_2_BASE_PIN + 15) = some 1 ∧
    ((switchBindings (issued [] (init_zynswitches drvOk []))).map (fun b => b.2.1)).getLast?
      = some (MCP23017_2_BASE_PIN + 13) ∧
    (∀ b ∈ switchBindings (issued [] (init_zynswitches drvOk [])),
      b.2.1 ≤ MCP23017_2_BASE_PIN + 13) ∧
    (∀ b ∈ switchBindings (issued [] (init_zynswitches drvOk [])),
      b.2.1 ≠ MCP23017_2_BASE_PIN + 14 ∧ b.2.1 ≠ MCP23017_2_BASE_PIN + 15) ∧
    (∀ b ∈ switchBindings (issued [] (init_zyncontrol drvOk 3 []).2),
      b.2.1 ≠ MCP23017_2_BASE_PIN + 14 ∧ b.2.1 ≠ MCP23017_2_BASE_PIN + 15) :=
  ⟨by decide, init_zynpots_zyncoder_pins drvOk 3 [] [] (by decide)⟩

/-! ## Expander configuration and interrupt handlers -/

/-- C10: for every revision, `init_zynmcp23017s` resets the expanders, then configures chip 0
(base pin 100, address 0x20, interrupt pins 5 and 6), then chip 1 (base pin 200, address
0x21, interrupt pins 7 and 8 on revision 1 and 17 and 27 otherwise).  Each chip is given two
handlers, and the handler at position `b` of chip `c` issues exactly the one call
`zynmcp23017_ISR(c, b)`.  The two 16-pin ranges do not overlap and the addresses differ. -/
theorem init_zynmcp23017s_config (drv : Driver) (Z2_VERSION : Int) (w : Trace) :
    issued w (init_zynmcp23017s drv Z2_VERSION w)
      = [Call.reset_zynmcp23017s,
         Call.setup_zynmcp23017 0 100 0x20 5 6 zynmcp23017_ISRs_1,
         Call.setup_zynmcp23017 1 200 0x21 (if Z2_VERSION = 1 then 7 else 17)
           (if Z2_VERSION = 1 then 8 else 27) zynmcp23017_ISRs_2] ∧
    (∀ (c base_pin i2c_address intA_pin intB_pin : Nat) (isrs : List Handler),
      Call.setup_zynmcp23017 c base_pin i2c_address intA_pin intB_pin isrs
          ∈ issued w (init_zynmcp23017s drv Z2_VERSION w) →
        c < 2 ∧ isrs.length = 2 ∧
        ∀ (b : Nat) (hb : b < isrs.length) (d : Driver) (v : Trace),
          (isrs.get ⟨b, hb⟩).run d v = v ++ [Call.zynmcp23017_ISR c b]) ∧
    MCP23017_1_BASE_PIN = 100 ∧ MCP23017_2_BASE_PIN = 200 ∧
    MCP23017_1_BASE_PIN + MCP23017_NUM_PINS ≤ MCP23017_2_BASE_PIN ∧
    (∀ pin : Nat, ¬ (chipOfPin pin = some 0 ∧ chipOfPin pin = some 1)) ∧
    MCP23017_1_I2C_ADDRESS = 0x20 ∧ MCP23017_2_I2C_ADDRESS = 0x21 ∧
    MCP23017_1_I2C_ADDRESS ≠ MCP23017_2_I2C_ADDRESS := by
  rw [init_zynmcp23017s_trace, issued_append]
  refine ⟨?_, ?_, by decide, by decide, by decide,
    ?_, by decide, by decide, by decide⟩
  · simp [zynmcp23017sCalls, MCP23017_2_INTA_PIN, MCP23017_2_INTB_PIN]
  · intro c base_pin i2c_address intA_pin intB_pin isrs hmem
    simp only [zynmcp23017sCalls, List.mem_cons, List.mem_singleton, Call.setup_zynmcp23017.injEq,
      reduceCtorEq, false_or, List.not_mem_nil, or_false] at hmem
    rcases hmem with ⟨hc, _, _, _, _, hi⟩ | ⟨hc, _, _, _, _, hi⟩
    · subst hc hi
      refine ⟨by decide, by decide, ?_⟩
      intro b hb d v
      have hb2 : b < 2 := hb
      interval_cases b <;> rfl
    · subst hc hi
      refine ⟨by decide, by decide, ?_⟩
      intro b hb d v
      have hb2 : b < 2 := hb
      interval_cases b <;> rfl
  · intro pin h
    rw [h.1] at h
    exact absurd h.2 (by decide)

/-! ## Teardown -/

/-- C8: for every revision and every state, `end_zyncontrol` issues `gpiod_stop_callbacks`
first, then `end_rv112s` directly followed by `reset_zynpots` (the two calls of
`end_zynpots`), then `reset_zynswitches`, then `reset_zynmcp23017s`, then `lm4811_end` last,
each exactly once; the only other call is a `reset_zyncoders` after `reset_zynpots`.  The
subsystems are torn down in the reverse of the order in which `init_zyncontrol` completes
their setup: setup runs callbacks, volume, expanders, switches, encoders and ends on the
callbacks again (delivery is enabled last), teardown runs callbacks, encoders, switches,
expanders, volume. -/
theorem end_zyncontrol_call_order (drv : Driver) (Z2_VERSION : Int) (w : Trace) :
    (end_zyncontrol drv w).2 = w ++ issued w (end_zyncontrol drv w).2 ∧
    (issued w (end_zyncontrol drv w).2).filter Call.isTeardownStep
      = [Call.gpiod_stop_callbacks, Call.end_rv112s, Call.reset_zynpots,
         Call.reset_zynswitches, Call.reset_zynmcp23017s, Call.lm4811_end] ∧
    issued w (end_zyncontrol drv w).2
      = [Call.gpiod_stop_callbacks, Call.end_rv112s, Call.reset_zynpots, Call.reset_zyncoders,
         Call.reset_zynswitches, Call.reset_zynmcp23017s, Call.lm4811_end] ∧
    (issued w (end_zyncontrol drv w).2).head? = some Call.gpiod_stop_callbacks ∧
    (issued w (end_zyncontrol drv w).2).getLast? = some Call.lm4811_end ∧
    (∀ c ∈ (issued w (end_zyncontrol drv w).2).filter Call.isTeardownStep,
      (issued w (end_zyncontrol drv w).2).count c = 1) ∧
    issued w (end_zynpots drv w) = [Call.end_rv112s, Call.reset_zynpots] ∧
    ((issued w (end_zyncontrol drv w).2).filterMap Call.subsystem).dedup
      = (((issued w (init_zyncontrol drv Z2_VERSION w).2).filterMap Call.subsystem).dedup).reverse ∧
    ((issued w (end_zyncontrol drv w).2).filterMap Call.subsystem).dedup
      = [Subsystem.callbacks, Subsystem.encoders, Subsystem.switches, Subsystem.expanders,
         Subsystem.volume] ∧
    ((issued w (init_zyncontrol drv Z2_VERSION w).2).filterMap Call.subsystem).destutter (· ≠ ·)
      = [Subsystem.callbacks, Subsystem.volume, Subsystem.expanders, Subsystem.switches,
         Subsystem.encoders, Subsystem.callbacks] ∧
    ((issued w (end_zyncontrol drv w).2).filterMap Call.subsystem).destutter (· ≠ ·)
      = [Subsystem.callbacks, Subsystem.encoders, Subsystem.switches, Subsystem.expanders,
         Subsystem.volume] := by
  rw [end_zyncontrol_trace, init_zyncontrol_trace, end_zynpots_trace]
  simp only [issued_append]
  refine ⟨trivial, by decide, rfl, by decide, by decide, by decide, trivial, ?_, by decide, ?_,
    by decide⟩
  · rcases zyncontrolCalls_cases Z2_VERSION with h | h | h <;> rw [h] <;> decide
  · rcases zyncontrolCalls_cases Z2_VERSION with h | h | h <;> rw [h] <;> decide

/-- C6, as stated, fails: called on the empty log (no `init_zyncontrol` before),
`end_zyncontrol` returns the same status as after `init_zyncontrol`, and it issues teardown
calls. -/
theorem end_zyncontrol_uninitialized_same_status :
    (end_zyncontrol drvOk []).1 = (end_zyncontrol drvOk (init_zyncontrol drvOk 1 []).2).1 ∧
    issued [] (end_zyncontrol drvOk []).2 ≠ [] ∧
    Call.reset_zynmcp23017s ∈ issued [] (end_zyncontrol drvOk []).2 ∧
    Call.lm4811_end ∈ issued [] (end_zyncontrol drvOk []).2 := by
  simp only [init_zyncontrol_trace, end_zyncontrol_trace, issued_append]
  decide

/-- C6, amended: `end_zyncontrol` keeps no lifecycle state.  In every state, the one before
any `init_zyncontrol` included, it returns 1, the status it also returns after
`init_zyncontrol`, and it issues the same seven teardown calls. -/
theorem end_zyncontrol_stateless (drv : Driver) (Z2_VERSION : Int) (w : Trace) :
    (end_zyncontrol drv w).1 = 1 ∧
    (end_zyncontrol drv []).1 = 1 ∧
    (end_zyncontrol drv (init_zyncontrol drv Z2_VERSION w).2).1 = 1 ∧
    issued w (end_zyncontrol drv w).2 = issued [] (end_zyncontrol drv []).2 ∧
    issued (init_zyncontrol drv Z2_VERSION w).2
        (end_zyncontrol drv (init_zyncontrol drv Z2_VERSION w).2).2
      = issued [] (end_zyncontrol drv []).2 ∧
    issued [] (end_zyncontrol drv []).2
      = [Call.gpiod_stop_callbacks, Call.end_rv112s, Call.reset_zynpots, Call.reset_zyncoders,
         Call.reset_zynswitches, Call.reset_zynmcp23017s, Call.lm4811_end] := by
  simp only [end_zyncontrol_trace, issued_append]
  exact ⟨trivial, trivial, trivial, trivial, trivial, rfl⟩

/-! ## Driver failures during initialisation -/

/-- C7, as stated, fails: with expander chips that report failure for every
`setup_zynmcp23017`, `init_zyncontrol` still returns the value it returns when every driver
call succeeds, and it still issues `gpiod_start_callbacks`. -/
theorem init_zyncontrol_ignores_chip_failure :
    drvChipUnreachable [] (Call.setup_zynmcp23017 0 100 0x20 5 6 zynmcp23017_ISRs_1)
      ≠ drvOk [] (Call.setup_zynmcp23017 0 100 0x20 5 6 zynmcp23017_ISRs_1) ∧
    (init_zyncontrol drvChipUnreachable 1 []).1 = (init_zyncontrol drvOk 1 []).1 ∧
    Call.gpiod_start_callbacks ∈ (init_zyncontrol drvChipUnreachable 1 []).2 := by
  simp only [init_zyncontrol_trace]
  decide

/-- C7, amended: `init_zyncontrol` discards the status of every driver call.  Whatever the
drivers report, it issues the same calls, ends by enabling interrupt delivery with
`gpiod_start_callbacks`, and returns 1. -/
theorem init_zyncontrol_status_independent (drv drv2 : Driver) (Z2_VERSION : Int)
    (w : Trace) :
    init_zyncontrol drv Z2_VERSION w = init_zyncontrol drv2 Z2_VERSION w ∧
    (init_zyncontrol drv Z2_VERSION w).1 = 1 ∧
    (issued w (init_zyncontrol drv Z2_VERSION w).2).getLast?
      = some Call.gpiod_start_callbacks := by
  simp only [init_zyncontrol_trace, issued_append]
  refine ⟨trivial, trivial, ?_⟩
  rcases zyncontrolCalls_cases Z2_VERSION with h | h | h <;> rw [h] <;> decide

end Zyncontrol
